import Mathlib

/-!
Verification of the dstack-mining-backend health monitor (src/src/main.rs).

The Rust sources are shallowly embedded: the network is replaced by explicit
outcome types (one constructor per way an HTTP or Unix-socket call can go),
and each Rust function that performs I/O becomes a pure Lean function from
those outcomes to its result, together with the trace of requests it issues.
-/

namespace DStack

/-! Data model, following the struct definitions of main.rs. -/

/-- Worker status enum from main.rs (Available = 1, Unavailable = 2). -/
inductive DephyWorkerRespondedStatus where
  | Available
  | Unavailable
deriving DecidableEq, Repr

/-- One GPU record as deserialized from the inventory backend. -/
structure GpuInfo where
  slot : String
  product_id : String
  description : String
  is_free : Bool
deriving DecidableEq, Repr

/-- The decoded inventory response body. -/
structure DStackResponse where
  gpus : List GpuInfo
  allow_attach_all : Bool
deriving DecidableEq, Repr

/-- The health report envelope. The Rust pubkeys field is a HashSet built by a
single insert into an empty set; it is embedded as the list of inserted keys. -/
structure BackendInfo where
  version : String
  topic : String
  pubkeys : List String
  status : DephyWorkerRespondedStatus
  metadata : Option String
  ip_address : Option String
deriving DecidableEq, Repr

/-- The dstack connection enum of main.rs, without the embedded client handles
(the transport outcomes below stand in for what the clients would do). -/
inductive DStackConnection where
  | Http (url : String)
  | UnixSocket (socket_path : String)
deriving DecidableEq, Repr

/-- The per-process state relevant to health reporting. -/
structure AppState where
  nostr_pubkey : String
  local_ip : Option String
deriving DecidableEq, Repr

/-! Character-list string helpers, used to embed the Rust standard library
string operations (starts_with, strip_prefix, substring containment) in a
form the kernel evaluates directly. -/

/-- Boolean test that the second list is an initial segment of the first. -/
def startsWithL : List Char → List Char → Bool
  | _, [] => true
  | [], _ :: _ => false
  | c :: cs, p :: ps => c == p && startsWithL cs ps

/-- Boolean test that the pattern occurs as a contiguous run inside the list. -/
def containsL (pat : List Char) : List Char → Bool
  | [] => startsWithL [] pat
  | c :: cs => startsWithL (c :: cs) pat || containsL pat cs

/-- Embeds Rust str::starts_with. -/
def strStartsWith (s p : String) : Bool := startsWithL s.data p.data

/-- Embeds Rust str::contains (substring containment). -/
def strContainsSub (s pat : String) : Bool := containsL pat.data s.data

/-- Embeds dropping the first n characters of a string, as str slicing does
after an ASCII prefix of length n. -/
def strDrop (s : String) (n : Nat) : String := ⟨s.data.drop n⟩

/-! A small JSON value type embedding what serde_json builds and prints for
the success-path metadata. -/

inductive Json where
  | str (s : String)
  | nat (n : Nat)
  | bool (b : Bool)
  | arr (xs : List Json)
  | obj (fields : List (String × Json))

/-- JSON string escaping for one character, as serde_json emits it. -/
def escapeChar (c : Char) : String :=
  if c = '"' then "\\\""
  else if c = '\\' then "\\\\"
  else if c = '\n' then "\\n"
  else if c = '\t' then "\\t"
  else if c = '\r' then "\\r"
  else String.singleton c

/-- Render a JSON string literal with quotes and escapes. -/
def renderString (s : String) : String :=
  "\"" ++ String.join (s.data.map escapeChar) ++ "\""

mutual

/-- Compact rendering of a JSON value, as serde_json to_string produces. -/
def Json.render : Json → String
  | .str s => renderString s
  | .nat n => toString n
  | .bool b => cond b "true" "false"
  | .arr xs => "[" ++ Json.renderArray xs ++ "]"
  | .obj fs => "\x7b" ++ Json.renderFields fs ++ "\x7d"

/-- Comma-separated rendering of array elements. -/
def Json.renderArray : List Json → String
  | [] => ""
  | [x] => Json.render x
  | x :: y :: rest => Json.render x ++ "," ++ Json.renderArray (y :: rest)

/-- Comma-separated rendering of object fields. -/
def Json.renderFields : List (String × Json) → String
  | [] => ""
  | [(k, v)] => renderString k ++ ":" ++ Json.render v
  | (k, v) :: f :: rest =>
      renderString k ++ ":" ++ Json.render v ++ "," ++ Json.renderFields (f :: rest)

end

/-- Field lookup on a JSON object. -/
def Json.getField : Json → String → Option Json
  | .obj fs, k => fs.lookup k
  | _, _ => none

/-! HTTP statuses and transport outcomes. -/

/-- An HTTP status as the client library exposes it: the numeric code plus the
text its Display implementation prints (code and canonical reason). -/
structure HttpStatus where
  code : Nat
  text : String
deriving DecidableEq, Repr

/-- Success test of the HTTP library: code in 200..=299. -/
def HttpStatus.is_success (s : HttpStatus) : Bool :=
  decide (200 ≤ s.code ∧ s.code < 300)

/-- How reading the inventory response body can go. -/
inductive BodyParse where
  | ok (r : DStackResponse)
  | fail (detail : String)
deriving Repr

/-- Outcome of the HTTP-transport inventory request in fetch_dstack_data. -/
inductive HttpProbeOutcome where
  | sendFailure (detail : String)
  | response (status : HttpStatus) (body : BodyParse)
deriving Repr

/-- Outcome of collecting the Unix-socket response body. -/
inductive UnixBodyRead where
  | readFailure (detail : String)
  | collected (body : BodyParse)
deriving Repr

/-- Outcome of the Unix-socket inventory request in fetch_dstack_data. -/
inductive UnixProbeOutcome where
  | buildFailure (detail : String)
  | requestFailure (detail : String)
  | response (status : HttpStatus) (body : UnixBodyRead)
deriving Repr

/-- One probe outcome, tagged by which transport branch ran. -/
inductive ProbeOutcome where
  | http (o : HttpProbeOutcome)
  | unix (o : UnixProbeOutcome)
deriving Repr

/-- The HTTP branch of fetch_dstack_data (main.rs lines 91 to 104). -/
def fetchHttp : HttpProbeOutcome → Except String DStackResponse
  | .sendFailure d => .error ("HTTP request failed: " ++ d)
  | .response st body =>
    if st.is_success then
      match body with
      | .ok r => .ok r
      | .fail d => .error ("Failed to parse JSON: " ++ d)
    else .error ("HTTP error: " ++ st.text)

/-- The Unix-socket branch of fetch_dstack_data (main.rs lines 105 to 128). -/
def fetchUnix : UnixProbeOutcome → Except String DStackResponse
  | .buildFailure d => .error ("Failed to build request: " ++ d)
  | .requestFailure d => .error ("Unix socket request failed: " ++ d)
  | .response st body =>
    if st.is_success then
      match body with
      | .readFailure d => .error ("Failed to read response body: " ++ d)
      | .collected (.ok r) => .ok r
      | .collected (.fail d) => .error ("Failed to parse JSON: " ++ d)
    else .error ("HTTP error: " ++ st.text)

/-- fetch_dstack_data, dispatching on the transport branch taken. -/
def fetch_dstack_data : ProbeOutcome → Except String DStackResponse
  | .http o => fetchHttp o
  | .unix o => fetchUnix o

/-- The structured metadata object the success path of check_dstack_health
builds with serde_json (main.rs lines 135 to 146). -/
def metadataJson (d : DStackResponse) : Json :=
  .obj
    [ ("gpu_count", .nat d.gpus.length),
      ("gpus", .arr (d.gpus.map fun gpu =>
        .obj
          [ ("slot", .str gpu.slot),
            ("product_id", .str gpu.product_id),
            ("description", .str gpu.description),
            ("is_free", .bool gpu.is_free) ])),
      ("allow_attach_all", .bool d.allow_attach_all) ]

/-- check_dstack_health (main.rs lines 132 to 177): turn one probe outcome
into a health report. -/
def check_dstack_health (state : AppState) (o : ProbeOutcome) : BackendInfo :=
  match fetch_dstack_data o with
  | .ok dstack_data =>
    { version := "1.0.0",
      topic := "dstack-gpu-monitor",
      pubkeys := [state.nostr_pubkey],
      status := .Available,
      metadata := some (metadataJson dstack_data).render,
      ip_address := state.local_ip }
  | .error e =>
    { version := "1.0.0",
      topic := "dstack-gpu-monitor",
      pubkeys := [state.nostr_pubkey],
      status := .Unavailable,
      metadata := some ("Error: " ++ e),
      ip_address := state.local_ip }

example :
    (check_dstack_health ⟨"pk", none⟩
      (.http (.response ⟨200, "200 OK"⟩ (.ok ⟨[⟨"0", "x", "NVIDIA H100", true⟩], true⟩)))).status
      = .Available := by decide

example :
    (metadataJson ⟨[⟨"0", "x", "NVIDIA H100", true⟩], true⟩).getField "gpu_count"
      = some (.nat 1) := rfl

/-! Registration workflow (main.rs lines 233 to 334). Each step is embedded as
a function from its outcome to the pair of the list of HTTP requests it issues
and its result. -/

inductive HttpMethod where
  | get
  | post
deriving DecidableEq, Repr

/-- One outbound request, recorded in the trace of a workflow run. -/
structure HttpRequest where
  method : HttpMethod
  url : String
deriving DecidableEq, Repr

/-- How parsing the permission-check response body can go: the parsed
write.mode string, or a parse failure. -/
inductive PermParse where
  | ok (mode : String)
  | fail (detail : String)
deriving Repr

/-- Outcome of the GET to the registry permissions endpoint. -/
inductive CheckOutcome where
  | netFailure (detail : String)
  | response (status : HttpStatus) (body : PermParse)
deriving Repr

/-- Outcome of the POST to the registry workers endpoint; errorText is the
response body text read on the failure path. -/
inductive RegisterOutcome where
  | netFailure (detail : String)
  | response (status : HttpStatus) (errorText : String)
deriving Repr

/-- check_worker_registered (main.rs lines 233 to 267): one GET to
registry_url/permissions/pubkey, then status and body dispatch. -/
def check_worker_registered (registry_url pubkey : String) (o : CheckOutcome) :
    List HttpRequest × Except String Bool :=
  ([⟨.get, registry_url ++ "/permissions/" ++ pubkey⟩],
    match o with
    | .netFailure d => .error d
    | .response st body =>
      if st.is_success then
        match body with
        | .ok mode => .ok (mode == "AllowAll")
        | .fail _ => .ok false
      else .ok false)

/-- register_worker (main.rs lines 269 to 304): one POST to
registry_url/workers, succeeding exactly on a 2xx response. -/
def register_worker (registry_url : String) (o : RegisterOutcome) :
    List HttpRequest × Except String Unit :=
  ([⟨.post, registry_url ++ "/workers"⟩],
    match o with
    | .netFailure d => .error d
    | .response st errorText =>
      if st.is_success then .ok ()
      else .error ("Registration failed: " ++ st.text ++ " - " ++ errorText))

/-- ensure_worker_registered (main.rs lines 306 to 334): check first; skip
registration only on a positive Ok true answer, otherwise register, also when
the check itself errored. -/
def ensure_worker_registered (registry_url pubkey : String)
    (co : CheckOutcome) (ro : RegisterOutcome) :
    List HttpRequest × Except String Unit :=
  let checked := check_worker_registered registry_url pubkey co
  match checked.2 with
  | .ok true => (checked.1, .ok ())
  | .ok false =>
    let reg := register_worker registry_url ro
    (checked.1 ++ reg.1, reg.2)
  | .error _ =>
    let reg := register_worker registry_url ro
    (checked.1 ++ reg.1, reg.2)

/-- Number of POST requests to the given URL in a trace. -/
def countPosts (trace : List HttpRequest) (url : String) : Nat :=
  (trace.filter fun r => r.method == .post && r.url == url).length

/-- What startup does with the registration result (main.rs lines 412 to 431):
an error exits the process with status 1, success continues to serving. -/
inductive StartupOutcome where
  | exited (code : Nat)
  | serving
deriving DecidableEq, Repr

/-- Dispatch of main on the ensure_worker_registered result. -/
def mainRegistrationStep : Except String Unit → StartupOutcome
  | .ok _ => .serving
  | .error _ => .exited 1

/-- Connection selection in main (main.rs lines 379 to 392): a unix scheme
prefix selects the Unix socket transport with the prefix stripped, anything
else is HTTP with the whole string as base URL. -/
def parseDStackConnection (s : String) : DStackConnection :=
  if strStartsWith s "unix://" then .UnixSocket (strDrop s 7)
  else .Http s

/-! NodeTypeResolver. -/

/-- Modelled from the spec: the NodeTypeResolver derivation rule of spec
section 4.2 is not implemented under src (main.rs only reads a NODE_TYPE
override with default node-H100x1). Zero GPUs give CPU; otherwise only the
first GPU description is substring-matched in priority order H200, H100,
B200, a match m with total record count n gives node-mxn, and no match gives
Unknown. -/
def deriveNodeType (d : DStackResponse) : String :=
  match d.gpus with
  | [] => "CPU"
  | g :: _ =>
    if strContainsSub g.description "H200" then "node-H200x" ++ toString d.gpus.length
    else if strContainsSub g.description "H100" then "node-H100x" ++ toString d.gpus.length
    else if strContainsSub g.description "B200" then "node-B200x" ++ toString d.gpus.length
    else "Unknown"

/-- Modelled from the spec: the retry loop of resolveNodeType in spec section
4.2, absent from src. The probe argument gives the outcome of each numbered
attempt; the loop stops at the first success and returns Unknown once the
remaining attempt budget is exhausted. -/
def resolveNodeTypeFrom (probe : Nat → Except String DStackResponse) :
    Nat → Nat → String
  | _, 0 => "Unknown"
  | attempt, fuel + 1 =>
    match probe attempt with
    | .ok d => deriveNodeType d
    | .error _ => resolveNodeTypeFrom probe (attempt + 1) fuel

/-- Modelled from the spec: resolveNodeType with the default budget of five
attempts. -/
def resolveNodeType (probe : Nat → Except String DStackResponse) : String :=
  resolveNodeTypeFrom probe 0 5

example :
    resolveNodeType (fun _ => .ok ⟨[⟨"0", "x", "NVIDIA H100", true⟩], true⟩)
      = "node-H100x1" := rfl

example :
    resolveNodeType (fun _ => .ok ⟨[⟨"0", "x", "H200 H100", true⟩], true⟩)
      = "node-H200x1" := rfl

example : parseDStackConnection "unix:///tmp/d.sock" = .UnixSocket "/tmp/d.sock" := by
  decide

example :
    countPosts
      (ensure_worker_registered "http://r" "pk"
        (.response ⟨200, "200 OK"⟩ (.ok "ReadOnly")) (.response ⟨201, "201 Created"⟩ "")).1
      "http://r/workers" = 1 := by decide

/-! Claim theorems. -/

/-- C1: for every probe outcome, the report of check_dstack_health has status
Available exactly when fetch_dstack_data returns a decoded InventoryResponse,
and on success the metadata is the rendered structured object whose gpu_count
field equals the length of the decoded gpus list. -/
theorem check_dstack_health_available_iff (state : AppState) (o : ProbeOutcome) :
    ((check_dstack_health state o).status = .Available ↔
      ∃ r, fetch_dstack_data o = .ok r) ∧
    ∀ r, fetch_dstack_data o = .ok r →
      (check_dstack_health state o).metadata = some (metadataJson r).render ∧
      (metadataJson r).getField "gpu_count" = some (.nat r.gpus.length) := by
  rcases h : fetch_dstack_data o with e | r
  · constructor
    · simp [check_dstack_health, h]
    · intro r hr
      exact absurd hr (by simp)
  · constructor
    · simp [check_dstack_health, h]
    · intro r' hr
      cases hr
      exact ⟨by simp [check_dstack_health, h], rfl⟩

/-- Witness for C1 at a concrete successful probe with one GPU. -/
theorem check_dstack_health_available_iff_witness :
    (check_dstack_health ⟨"pk", none⟩
        (.http (.response ⟨200, "200 OK"⟩
          (.ok ⟨[⟨"0", "x", "NVIDIA H100", true⟩], true⟩)))).metadata
      = some (metadataJson ⟨[⟨"0", "x", "NVIDIA H100", true⟩], true⟩).render ∧
    (metadataJson ⟨[⟨"0", "x", "NVIDIA H100", true⟩], true⟩).getField "gpu_count"
      = some (.nat 1) :=
  (check_dstack_health_available_iff ⟨"pk", none⟩
      (.http (.response ⟨200, "200 OK"⟩
        (.ok ⟨[⟨"0", "x", "NVIDIA H100", true⟩], true⟩)))).2
    ⟨[⟨"0", "x", "NVIDIA H100", true⟩], true⟩ rfl

/-- C8: on every path the pubkeys set of the report is exactly the singleton
holding the local node key, hence never empty and never holding another key. -/
theorem check_dstack_health_pubkeys_singleton (state : AppState) (o : ProbeOutcome) :
    (check_dstack_health state o).pubkeys = [state.nostr_pubkey] ∧
    (check_dstack_health state o).pubkeys ≠ [] := by
  rcases h : fetch_dstack_data o with e | r <;>
    simp [check_dstack_health, h]

/-- C10: version, topic, metadata presence and ip_address of the report are the
same on the success and failure paths and do not depend on the probe outcome. -/
theorem check_dstack_health_stable_fields (state : AppState) (o : ProbeOutcome) :
    (check_dstack_health state o).version = "1.0.0" ∧
    (check_dstack_health state o).topic = "dstack-gpu-monitor" ∧
    ((check_dstack_health state o).metadata).isSome = true ∧
    (check_dstack_health state o).ip_address = state.local_ip := by
  rcases h : fetch_dstack_data o with e | r <;>
    simp [check_dstack_health, h]

/-- C7 counterexample: at a concrete connection-level failure the report is
Unavailable, but its metadata string is Error: HTTP request failed: followed
by the detail; it is not of the form Connection error: with the detail, and
does not even contain the text Connection error. -/
theorem check_dstack_health_error_forms_cex :
    (check_dstack_health ⟨"pk", none⟩ (.http (.sendFailure "connection refused"))).status
      = .Unavailable ∧
    (check_dstack_health ⟨"pk", none⟩ (.http (.sendFailure "connection refused"))).metadata
      = some "Error: HTTP request failed: connection refused" ∧
    strStartsWith "Error: HTTP request failed: connection refused" "Connection error: "
      = false ∧
    strContainsSub "Error: HTTP request failed: connection refused" "Connection error"
      = false := by
  refine ⟨by decide, by decide, by decide, by decide⟩

/-- C7 amended: on every transport failure the status is Unavailable and the
metadata is the single string Error: followed by the transport error message,
which begins with one of the category texts HTTP request failed:, HTTP error:,
Failed to parse JSON:, Failed to build request:, Unix socket request failed:,
or Failed to read response body:, according to the failure category. -/
theorem check_dstack_health_error_metadata (state : AppState) (o : ProbeOutcome)
    (e : String) (h : fetch_dstack_data o = .error e) :
    (check_dstack_health state o).status = .Unavailable ∧
    (check_dstack_health state o).metadata = some ("Error: " ++ e) ∧
    ((∃ d, e = "HTTP request failed: " ++ d) ∨
     (∃ d, e = "HTTP error: " ++ d) ∨
     (∃ d, e = "Failed to parse JSON: " ++ d) ∨
     (∃ d, e = "Failed to build request: " ++ d) ∨
     (∃ d, e = "Unix socket request failed: " ++ d) ∨
     (∃ d, e = "Failed to read response body: " ++ d)) := by
  refine ⟨by simp [check_dstack_health, h], by simp [check_dstack_health, h], ?_⟩
  cases o with
  | http o =>
    cases o with
    | sendFailure d =>
      simp only [fetch_dstack_data, fetchHttp, Except.error.injEq] at h
      exact Or.inl ⟨d, h.symm⟩
    | response st body =>
      by_cases hs : st.is_success = true
      · cases body with
        | ok r => simp [fetch_dstack_data, fetchHttp, hs] at h
        | fail d =>
          simp only [fetch_dstack_data, fetchHttp, hs, if_true, Except.error.injEq] at h
          exact Or.inr (Or.inr (Or.inl ⟨d, h.symm⟩))
      · simp [fetch_dstack_data, fetchHttp, hs] at h
        exact Or.inr (Or.inl ⟨st.text, h.symm⟩)
  | unix o =>
    cases o with
    | buildFailure d =>
      simp only [fetch_dstack_data, fetchUnix, Except.error.injEq] at h
      exact Or.inr (Or.inr (Or.inr (Or.inl ⟨d, h.symm⟩)))
    | requestFailure d =>
      simp only [fetch_dstack_data, fetchUnix, Except.error.injEq] at h
      exact Or.inr (Or.inr (Or.inr (Or.inr (Or.inl ⟨d, h.symm⟩))))
    | response st body =>
      by_cases hs : st.is_success = true
      · cases body with
        | readFailure d =>
          simp only [fetch_dstack_data, fetchUnix, hs, if_true, Except.error.injEq] at h
          exact Or.inr (Or.inr (Or.inr (Or.inr (Or.inr ⟨d, h.symm⟩))))
        | collected b =>
          cases b with
          | ok r => simp [fetch_dstack_data, fetchUnix, hs] at h
          | fail d =>
            simp only [fetch_dstack_data, fetchUnix, hs, if_true, Except.error.injEq] at h
            exact Or.inr (Or.inr (Or.inl ⟨d, h.symm⟩))
      · simp [fetch_dstack_data, fetchUnix, hs] at h
        exact Or.inr (Or.inl ⟨st.text, h.symm⟩)

/-- Witness for the amended C7 at a concrete connection failure. -/
theorem check_dstack_health_error_metadata_witness :
    (check_dstack_health ⟨"pk", none⟩ (.http (.sendFailure "connection refused"))).status
      = .Unavailable ∧
    (check_dstack_health ⟨"pk", none⟩ (.http (.sendFailure "connection refused"))).metadata
      = some ("Error: " ++ ("HTTP request failed: " ++ "connection refused")) ∧
    ((∃ d, "HTTP request failed: " ++ "connection refused" = "HTTP request failed: " ++ d) ∨
     (∃ d, "HTTP request failed: " ++ "connection refused" = "HTTP error: " ++ d) ∨
     (∃ d, "HTTP request failed: " ++ "connection refused" = "Failed to parse JSON: " ++ d) ∨
     (∃ d, "HTTP request failed: " ++ "connection refused" = "Failed to build request: " ++ d) ∨
     (∃ d, "HTTP request failed: " ++ "connection refused"
        = "Unix socket request failed: " ++ d) ∨
     (∃ d, "HTTP request failed: " ++ "connection refused"
        = "Failed to read response body: " ++ d)) :=
  check_dstack_health_error_metadata ⟨"pk", none⟩ (.http (.sendFailure "connection refused"))
    ("HTTP request failed: " ++ "connection refused") rfl

/-- Helper: the register step always issues exactly one POST to the workers
endpoint, whatever its outcome. -/
theorem register_worker_posts (ru : String) (ro : RegisterOutcome) :
    countPosts (register_worker ru ro).1 (ru ++ "/workers") = 1 := by
  simp [register_worker, countPosts]

/-- Helper: the check step issues no POST. -/
theorem check_worker_registered_posts (ru pk url : String) (co : CheckOutcome) :
    countPosts (check_worker_registered ru pk co).1 url = 0 := by
  simp [check_worker_registered, countPosts]

/-- Helper: countPosts distributes over trace concatenation. -/
theorem countPosts_append (t u : List HttpRequest) (url : String) :
    countPosts (t ++ u) url = countPosts t url + countPosts u url := by
  simp [countPosts]

/-- C2: when the registry check gets a 2xx response that parses, a write.mode
other than AllowAll leads to exactly one POST to the workers endpoint, and a
write.mode equal to AllowAll leads to zero POSTs and a successful result. -/
theorem ensure_worker_registered_modes (ru pk mode : String) (st : HttpStatus)
    (ro : RegisterOutcome) (hs : st.is_success = true) :
    (mode ≠ "AllowAll" →
      countPosts (ensure_worker_registered ru pk (.response st (.ok mode)) ro).1
        (ru ++ "/workers") = 1) ∧
    (mode = "AllowAll" →
      countPosts (ensure_worker_registered ru pk (.response st (.ok mode)) ro).1
        (ru ++ "/workers") = 0 ∧
      (ensure_worker_registered ru pk (.response st (.ok mode)) ro).2 = .ok ()) := by
  constructor
  · intro hm
    have hb : (mode == "AllowAll") = false := by
      simp [hm]
    simp [ensure_worker_registered, check_worker_registered, hs, hb,
      countPosts_append, check_worker_registered_posts, register_worker_posts,
      countPosts, register_worker]
  · intro hm
    have hb : (mode == "AllowAll") = true := by
      simp [hm]
    constructor
    · simp [ensure_worker_registered, check_worker_registered, hs, hb, countPosts]
    · simp [ensure_worker_registered, check_worker_registered, hs, hb]

/-- Witness for C2 at a 200 check response, once with mode ReadOnly and once
with mode AllowAll. -/
theorem ensure_worker_registered_modes_witness :
    countPosts (ensure_worker_registered "http://r" "pk"
        (.response ⟨200, "200 OK"⟩ (.ok "ReadOnly"))
        (.response ⟨201, "201 Created"⟩ "")).1
      ("http://r" ++ "/workers") = 1 ∧
    countPosts (ensure_worker_registered "http://r" "pk"
        (.response ⟨200, "200 OK"⟩ (.ok "AllowAll"))
        (.response ⟨201, "201 Created"⟩ "")).1
      ("http://r" ++ "/workers") = 0 ∧
    (ensure_worker_registered "http://r" "pk"
        (.response ⟨200, "200 OK"⟩ (.ok "AllowAll"))
        (.response ⟨201, "201 Created"⟩ "")).2 = .ok () :=
  ⟨(ensure_worker_registered_modes "http://r" "pk" "ReadOnly" ⟨200, "200 OK"⟩
      (.response ⟨201, "201 Created"⟩ "") rfl).1 (by decide),
   (ensure_worker_registered_modes "http://r" "pk" "AllowAll" ⟨200, "200 OK"⟩
      (.response ⟨201, "201 Created"⟩ "") rfl).2 rfl⟩

/-- C3: when the check fails at the network level the workflow still issues
exactly one POST to the workers endpoint, and its result is exactly the
result of the register step (the check failure is not propagated). -/
theorem ensure_worker_registered_check_netfail (ru pk d : String) (ro : RegisterOutcome) :
    countPosts (ensure_worker_registered ru pk (.netFailure d) ro).1
      (ru ++ "/workers") = 1 ∧
    (ensure_worker_registered ru pk (.netFailure d) ro).2 = (register_worker ru ro).2 := by
  constructor
  · simp [ensure_worker_registered, check_worker_registered,
      countPosts_append, countPosts, register_worker]
  · rfl

/-- C6: a 2xx check response whose body fails to parse makes the check step
report Ok false rather than an error, and the workflow then issues one POST. -/
theorem check_worker_parse_failure (ru pk d : String) (st : HttpStatus)
    (ro : RegisterOutcome) (hs : st.is_success = true) :
    (check_worker_registered ru pk (.response st (.fail d))).2 = .ok false ∧
    countPosts (ensure_worker_registered ru pk (.response st (.fail d)) ro).1
      (ru ++ "/workers") = 1 := by
  constructor
  · simp [check_worker_registered, hs]
  · simp [ensure_worker_registered, check_worker_registered, hs,
      countPosts_append, countPosts, register_worker]

/-- Witness for C6 at a concrete 200 response with an unparsable body. -/
theorem check_worker_parse_failure_witness :
    (check_worker_registered "http://r" "pk"
        (.response ⟨200, "200 OK"⟩ (.fail "bad json"))).2 = .ok false ∧
    countPosts (ensure_worker_registered "http://r" "pk"
        (.response ⟨200, "200 OK"⟩ (.fail "bad json"))
        (.response ⟨201, "201 Created"⟩ "")).1
      ("http://r" ++ "/workers") = 1 :=
  check_worker_parse_failure "http://r" "pk" "bad json" ⟨200, "200 OK"⟩
    (.response ⟨201, "201 Created"⟩ "") rfl

/-- C4: whenever the check step does not positively confirm registration, a
register POST that fails at the network level or returns a non-2xx status
makes the workflow return an error and main exit with status 1 (non-zero,
so the serving state is never reached), while a 2xx register response makes
startup continue to serving. -/
theorem register_failure_fatal (ru pk : String) (co : CheckOutcome) (ro : RegisterOutcome)
    (hneed : (check_worker_registered ru pk co).2 ≠ .ok true) :
    (((∃ d, ro = .netFailure d) ∨
        (∃ st et, ro = .response st et ∧ st.is_success = false)) →
      ∃ e, (ensure_worker_registered ru pk co ro).2 = .error e ∧
        mainRegistrationStep (ensure_worker_registered ru pk co ro).2 = .exited 1 ∧
        (1 : Nat) ≠ 0) ∧
    (∀ st et, ro = .response st et → st.is_success = true →
      mainRegistrationStep (ensure_worker_registered ru pk co ro).2 = .serving) := by
  have hreg : (ensure_worker_registered ru pk co ro).2 = (register_worker ru ro).2 := by
    unfold ensure_worker_registered
    rcases hc : (check_worker_registered ru pk co).2 with e | b
    · simp [hc]
    · cases b
      · simp [hc]
      · exact absurd hc hneed
  constructor
  · rintro (⟨d, rfl⟩ | ⟨st, et, rfl, hs⟩)
    · exact ⟨d, by simp [hreg, register_worker], by simp [hreg, register_worker,
        mainRegistrationStep], by decide⟩
    · refine ⟨"Registration failed: " ++ st.text ++ " - " ++ et, ?_, ?_, by decide⟩
      · simp [hreg, register_worker, hs]
      · simp [hreg, register_worker, hs, mainRegistrationStep]
  · rintro st et rfl hs
    simp [hreg, register_worker, hs, mainRegistrationStep]

/-- Witness for C4: a 200 check response with an unparsable body followed by a
500 register response yields an error result and exit status 1. -/
theorem register_failure_fatal_witness :
    ∃ e, (ensure_worker_registered "http://r" "pk"
        (.response ⟨200, "200 OK"⟩ (.fail "bad json"))
        (.response ⟨500, "500 Internal Server Error"⟩ "boom")).2 = .error e ∧
      mainRegistrationStep (ensure_worker_registered "http://r" "pk"
        (.response ⟨200, "200 OK"⟩ (.fail "bad json"))
        (.response ⟨500, "500 Internal Server Error"⟩ "boom")).2 = .exited 1 ∧
      (1 : Nat) ≠ 0 :=
  (register_failure_fatal "http://r" "pk"
      (.response ⟨200, "200 OK"⟩ (.fail "bad json"))
      (.response ⟨500, "500 Internal Server Error"⟩ "boom")
      (fun h => Bool.noConfusion (Except.ok.inj h))).1
    (Or.inr ⟨⟨500, "500 Internal Server Error"⟩, "boom", rfl, rfl⟩)

/-- C9: connection selection is a function of the configured URL string alone;
the UnixSocket variant is chosen exactly when the string starts with the
unix scheme prefix, taking the remainder after the seven prefix characters as
the socket path, and otherwise the Http variant holds the whole string. -/
theorem parseDStackConnection_selection (s : String) :
    (strStartsWith s "unix://" = true →
      parseDStackConnection s = .UnixSocket (strDrop s 7)) ∧
    (strStartsWith s "unix://" = false →
      parseDStackConnection s = .Http s) ∧
    ((∃ p, parseDStackConnection s = .UnixSocket p) ↔
      strStartsWith s "unix://" = true) := by
  by_cases h : strStartsWith s "unix://" = true
  · refine ⟨fun _ => ?_, fun hf => ?_, ?_⟩
    · simp [parseDStackConnection, h]
    · rw [h] at hf
      cases hf
    · exact ⟨fun _ => h, fun _ => ⟨strDrop s 7, by simp [parseDStackConnection, h]⟩⟩
  · refine ⟨fun ht => absurd ht h, fun _ => ?_, ?_⟩
    · simp [parseDStackConnection, h]
    · constructor
      · rintro ⟨p, hp⟩
        simp [parseDStackConnection, h] at hp
      · intro ht
        exact absurd ht h

/-- Witness for C9 on one unix-scheme URL and one plain HTTP URL. -/
theorem parseDStackConnection_selection_witness :
    parseDStackConnection "unix:///var/run/dstack.sock"
      = .UnixSocket (strDrop "unix:///var/run/dstack.sock" 7) ∧
    parseDStackConnection "http://localhost:19060" = .Http "http://localhost:19060" :=
  ⟨(parseDStackConnection_selection "unix:///var/run/dstack.sock").1 rfl,
   (parseDStackConnection_selection "http://localhost:19060").2.1 rfl⟩

/-- C5 counterexample: an inventory whose single GPU description is
H200 H100 contains H100, yet resolveNodeType returns node-H200x1 because the
spec matches H200 with higher priority, not node-H100x1 as the claim states. -/
theorem resolveNodeType_first_h100_cex :
    strContainsSub "H200 H100" "H100" = true ∧
    resolveNodeType (fun _ => .ok ⟨[⟨"0", "x", "H200 H100", true⟩], true⟩)
      = "node-H200x1" ∧
    "node-H200x1" ≠ "node-H100x1" := ⟨by decide, by decide, by decide⟩

/-- C5 amended: for every inventory obtained on the first attempt whose first
GPU description contains H100 but not the higher-priority H200, resolveNodeType
returns node-H100x followed by the total GPU record count, whatever the other
GPU descriptions are. -/
theorem resolveNodeType_first_h100 (probe : Nat → Except String DStackResponse)
    (d : DStackResponse) (g : GpuInfo) (rest : List GpuInfo)
    (hp : probe 0 = .ok d) (hg : d.gpus = g :: rest)
    (h100 : strContainsSub g.description "H100" = true)
    (h200 : strContainsSub g.description "H200" = false) :
    resolveNodeType probe = "node-H100x" ++ toString d.gpus.length := by
  have step : resolveNodeTypeFrom probe 0 5 = (match probe 0 with
      | .ok r => deriveNodeType r
      | .error _ => resolveNodeTypeFrom probe 1 4) := rfl
  rw [resolveNodeType, step, hp]
  simp only [deriveNodeType, hg, h100, h200]
  simp

/-- Witness for the amended C5: first GPU NVIDIA H100, second GPU with an
unrelated description, total count two. -/
theorem resolveNodeType_first_h100_witness :
    resolveNodeType (fun _ =>
        .ok ⟨[⟨"0", "x", "NVIDIA H100", true⟩, ⟨"1", "y", "Other accelerator", false⟩],
          false⟩)
      = "node-H100x" ++ toString
          ([⟨"0", "x", "NVIDIA H100", true⟩,
            (⟨"1", "y", "Other accelerator", false⟩ : GpuInfo)].length) :=
  resolveNodeType_first_h100 _
    ⟨[⟨"0", "x", "NVIDIA H100", true⟩, ⟨"1", "y", "Other accelerator", false⟩], false⟩
    ⟨"0", "x", "NVIDIA H100", true⟩ [⟨"1", "y", "Other accelerator", false⟩]
    rfl rfl (by decide) (by decide)

end DStack
